import Mathlib

/-!
Shallow embedding of the conversation session controller of the
Legal_Chat_Bot client (src/src/App.jsx).  The React component state is
modelled as an explicit record `ChatState`; the event handlers
(`sendMessage`, `clearChat`, `checkHealth`, the settings handlers) become
state-transition functions.  Network effects are passed in explicitly: a
send is parametrised by the outcome of the POST /api/chat call, a clear by
the confirm-dialog answer and the outcome of the DELETE call, a health
check by the outcome of GET /api/health.  The millisecond clock Date.now()
becomes an explicit natural-number argument.
-/

/-- Chat message, as built by App.jsx: a role string ("user", "assistant"
or "error"), the content text, and the optional model name that is present
only on assistant replies. -/
structure Message where
  role : String
  content : String
  modelName : Option String
deriving DecidableEq, Repr

/-- Generation settings record, as held in the settings useState hook of
App.jsx.  JavaScript numbers are modelled as an integer for maxLength and
rationals for temperature and topP. -/
structure GenerationSettings where
  maxLength : Int
  temperature : ℚ
  topP : ℚ
deriving DecidableEq, Repr

/-- Component state of App.jsx relevant to the session controller:
messages, the input buffer, the isLoading flag, the session identifier,
the generation settings and the banner error (null modelled as none). -/
structure ChatState where
  messages : List Message
  input : String
  isLoading : Bool
  sessionId : String
  settings : GenerationSettings
  error : Option String
deriving DecidableEq, Repr

/-- Session token built by the template literal in App.jsx lines 16 and
123, with the Date.now() millisecond reading passed explicitly. -/
def newSessionId (now : Nat) : String :=
  "session_" ++ Nat.repr now

/-- JavaScript String.prototype.trim: remove leading and trailing
whitespace, modelled structurally on the character list of the string. -/
def jsTrim (s : String) : String :=
  (((s.data.dropWhile Char.isWhitespace).reverse.dropWhile
      Char.isWhitespace).reverse).asString

/-- Initial component state of App.jsx: empty messages, empty input, not
loading, a session id stamped with the mount-time clock reading, the
default settings literal, and no error. -/
def initState (t0 : Nat) : ChatState :=
  { messages := []
    input := ""
    isLoading := false
    sessionId := newSessionId t0
    settings := { maxLength := 512, temperature := 0.7, topP := 0.9 }
    error := none }

/-- Shape of an axios error as inspected by the catch block of
sendMessage: err.code, and err.response when a response was received.
The field dataMessage stands for err.response.data.message, with the
empty string standing for an absent or empty message (both are falsy in
JavaScript). -/
structure AxiosResponse where
  status : Nat
  dataMessage : String
deriving DecidableEq, Repr

/-- Axios error object: code is some string when set (timeouts carry
"ECONNABORTED"), response is none when no response was received. -/
structure AxiosError where
  code : Option String
  response : Option AxiosResponse
deriving DecidableEq, Repr

/-- Suffix appended to the error message by the if-else chain in the
catch block of sendMessage (App.jsx lines 90-100). -/
def classifySuffix (e : AxiosError) : String :=
  if e.code = some "ECONNABORTED" then
    "Request timed out. The model might be taking too long to respond."
  else
    match e.response with
    | some r =>
        if r.status = 429 then
          "Too many requests. Please wait a moment and try again."
        else if r.dataMessage ≠ "" then
          r.dataMessage
        else
          "Please try again."
    | none =>
        "Cannot connect to server. Please check if the backend is running."

/-- Full classified error message: App.jsx starts from the literal
"Failed to get response. " and appends the classified suffix. -/
def classifyError (e : AxiosError) : String :=
  "Failed to get response. " ++ classifySuffix e

/-- Outcome of the POST /api/chat call: either a success body carrying
response and modelName, or an axios error. -/
inductive NetOutcome where
  | success (response : String) (modelName : String)
  | failure (e : AxiosError)
deriving DecidableEq, Repr

/-- Payload of the POST /api/chat request issued by sendMessage. -/
structure ChatRequest where
  message : String
  sessionId : String
  options : GenerationSettings
deriving DecidableEq, Repr

/-- Synchronous phase of sendMessage, up to the point where the POST is
dispatched (App.jsx lines 52-74): the guard returns early when the
trimmed input is empty or a request is in flight; otherwise the input is
cleared, the error reset, the user message appended, isLoading set, and
the request payload built from the trimmed text, the session id and the
current settings.  Returns the new state and the dispatched request, or
none when the guard rejected the call. -/
def sendDispatch (s : ChatState) : ChatState × Option ChatRequest :=
  if jsTrim s.input = "" ∨ s.isLoading = true then
    (s, none)
  else
    let userMessage := jsTrim s.input
    ({ s with
        input := ""
        error := none
        messages := s.messages ++ [{ role := "user", content := userMessage, modelName := none }]
        isLoading := true },
     some { message := userMessage, sessionId := s.sessionId, options := s.settings })

/-- Resolution phase of sendMessage (App.jsx lines 76-115): on success
the assistant message is appended; on failure the classified message is
stored in the error state and appended as an error-role message; the
finally block resets isLoading in both cases. -/
def sendResolve (s : ChatState) (out : NetOutcome) : ChatState :=
  match out with
  | .success response modelName =>
      { s with
          messages := s.messages ++
            [{ role := "assistant", content := response, modelName := some modelName }]
          isLoading := false }
  | .failure e =>
      { s with
          error := some (classifyError e)
          messages := s.messages ++
            [{ role := "error", content := classifyError e, modelName := none }]
          isLoading := false }

/-- Whole sendMessage handler: dispatch, then, when a request actually
went out, resolution with the given network outcome.  The second
component is the request that was dispatched, none when the guard
rejected the call. -/
def sendMessage (s : ChatState) (out : NetOutcome) : ChatState × Option ChatRequest :=
  match sendDispatch s with
  | (s1, none) => (s1, none)
  | (s1, some req) => (sendResolve s1 out, some req)

/-- clearChat handler (App.jsx lines 118-129): gated on the confirm
dialog; when confirmed, the DELETE call is awaited inside try, and only
when it succeeds do the three local resets run; a failed DELETE lands in
the catch block, which only logs.  Returns the new state and whether the
DELETE request was issued. -/
def clearChat (s : ChatState) (confirmed : Bool) (deleteOk : Bool) (now : Nat) :
    ChatState × Bool :=
  if confirmed then
    if deleteOk then
      ({ s with messages := [], sessionId := newSessionId now, error := none }, true)
    else
      (s, true)
  else
    (s, false)

/-- checkHealth handler (App.jsx lines 41-50): on a successful GET the
error is cleared, on failure it is set to the fixed health-check
message. -/
def checkHealth (s : ChatState) (ok : Bool) : ChatState :=
  if ok then
    { s with error := none }
  else
    { s with error := some "Unable to connect to server. Please check if the backend is running." }

/-- Partial settings patch, modelling the spec-level set(patch) contract;
each onChange handler of the settings panel patches one field through an
object spread. -/
structure SettingsPatch where
  maxLength : Option Int
  temperature : Option ℚ
  topP : Option ℚ
deriving DecidableEq, Repr

/-- Single-field setting updates, as performed by the three onChange
handlers of the settings panel via object spread (App.jsx lines 176, 190
and 204). -/
def setMaxLength (s : GenerationSettings) (v : Int) : GenerationSettings :=
  { s with maxLength := v }

/-- Object-spread update of the temperature field. -/
def setTemperature (s : GenerationSettings) (v : ℚ) : GenerationSettings :=
  { s with temperature := v }

/-- Object-spread update of the topP field. -/
def setTopP (s : GenerationSettings) (v : ℚ) : GenerationSettings :=
  { s with topP := v }

/-- Application of a partial patch: each present field is applied through
the corresponding spread handler, absent fields leave the record
untouched. -/
def applyPatch (s : GenerationSettings) (p : SettingsPatch) : GenerationSettings :=
  let s1 := match p.maxLength with
    | some v => setMaxLength s v
    | none => s
  let s2 := match p.temperature with
    | some v => setTemperature s1 v
    | none => s1
  match p.topP with
  | some v => setTopP s2 v
  | none => s2

/-- setSettings lifted to the component state. -/
def setSettingsState (s : ChatState) (p : SettingsPatch) : ChatState :=
  { s with settings := applyPatch s.settings p }

/-- setInput handler: typing in the input box replaces the input buffer. -/
def setInputState (s : ChatState) (t : String) : ChatState :=
  { s with input := t }

/-- Operations of the controller, each carrying its environment: the
network outcome for a send, the confirm answer, DELETE outcome and clock
reading for a clear, the health outcome, a settings patch, an input
edit. -/
inductive Op where
  | send (out : NetOutcome)
  | clear (confirmed : Bool) (deleteOk : Bool) (now : Nat)
  | health (ok : Bool)
  | patchSettings (p : SettingsPatch)
  | editInput (t : String)
deriving DecidableEq, Repr

/-- One controller step: dispatches each operation to its handler. -/
def step (s : ChatState) (op : Op) : ChatState :=
  match op with
  | .send out => (sendMessage s out).1
  | .clear confirmed deleteOk now => (clearChat s confirmed deleteOk now).1
  | .health ok => checkHealth s ok
  | .patchSettings p => setSettingsState s p
  | .editInput t => setInputState s t

/-- Session tokens generated across a process lifetime, one per clock
reading at which a token was requested (the mount-time one and one per
successful clear). -/
def sessionTokens (times : List Nat) : List String :=
  times.map newSessionId

/-! Injectivity of the decimal rendering used by the session-token
template literal.  The core function Nat.repr runs Nat.toDigitsCore on a
fuel argument; we relate it to Mathlib-level Nat.digits and derive
injectivity from the ofDigits round trip. -/

/-- Character list produced by Nat.repr, phrased through Nat.digits. -/
def reprChars (n : Nat) : List Char :=
  if n = 0 then [Nat.digitChar 0]
  else ((Nat.digits 10 n).map Nat.digitChar).reverse

theorem toDigitsCore_eq_reprChars :
    ∀ (f n : Nat) (acc : List Char), n < f →
      Nat.toDigitsCore 10 f n acc = reprChars n ++ acc := by
  intro f
  induction f with
  | zero => intro n acc h; exact absurd h (Nat.not_lt_zero n)
  | succ f ih =>
    intro n acc h
    by_cases h0 : n / 10 = 0
    · have hn10 : n < 10 := (Nat.div_eq_zero_iff (by norm_num)).mp h0
      by_cases hn : n = 0
      · subst hn
        simp [Nat.toDigitsCore, reprChars]
      · have hpos : 0 < n := Nat.pos_of_ne_zero hn
        have hdig : Nat.digits 10 n = n % 10 :: Nat.digits 10 (n / 10) :=
          Nat.digits_def' (by norm_num) hpos
        simp only [Nat.toDigitsCore, h0, if_true, reprChars, hn, if_false]
        rw [hdig, h0]
        simp [Nat.mod_eq_of_lt hn10]
    · have hn : n ≠ 0 := by
        intro hc
        subst hc
        simp at h0
      have hpos : 0 < n := Nat.pos_of_ne_zero hn
      have hlt : n / 10 < f := by
        have h1 : n / 10 < n := Nat.div_lt_self hpos (by norm_num)
        omega
      have hdig : Nat.digits 10 n = n % 10 :: Nat.digits 10 (n / 10) :=
        Nat.digits_def' (by norm_num) hpos
      simp only [Nat.toDigitsCore, h0, if_false]
      rw [ih (n / 10) (Nat.digitChar (n % 10) :: acc) hlt]
      simp only [reprChars, hn, if_false, h0, hdig]
      simp

theorem repr_eq_reprChars (n : Nat) : Nat.repr n = (reprChars n).asString := by
  rw [Nat.repr, Nat.toDigits,
    toDigitsCore_eq_reprChars (n + 1) n [] (Nat.lt_succ_self n), List.append_nil]

theorem digitChar_inj_lt :
    ∀ a, a < 10 → ∀ b, b < 10 → Nat.digitChar a = Nat.digitChar b → a = b := by
  decide

theorem map_digitChar_inj :
    ∀ (l1 l2 : List Nat), (∀ d ∈ l1, d < 10) → (∀ d ∈ l2, d < 10) →
      l1.map Nat.digitChar = l2.map Nat.digitChar → l1 = l2 := by
  intro l1
  induction l1 with
  | nil =>
    intro l2 _ _ h
    cases l2 with
    | nil => rfl
    | cons b t => simp at h
  | cons a t ih =>
    intro l2 h1 h2 h
    cases l2 with
    | nil => simp at h
    | cons b t2 =>
      simp only [List.map_cons, List.cons.injEq] at h
      have ha : a < 10 := h1 a (List.mem_cons_self a t)
      have hb : b < 10 := h2 b (List.mem_cons_self b t2)
      have hab : a = b := digitChar_inj_lt a ha b hb h.1
      have ht : t = t2 :=
        ih t2 (fun d hd => h1 d (List.mem_cons_of_mem a hd))
          (fun d hd => h2 d (List.mem_cons_of_mem b hd)) h.2
      rw [hab, ht]

theorem reprChars_inj {m n : Nat} (h : reprChars m = reprChars n) : m = n := by
  have key : ∀ k : Nat, k ≠ 0 →
      reprChars k = ((Nat.digits 10 k).map Nat.digitChar).reverse := by
    intro k hk
    simp [reprChars, hk]
  have digitsEq : ∀ k l : Nat, Nat.digits 10 k = Nat.digits 10 l → k = l := by
    intro k l hkl
    have := congrArg (Nat.ofDigits 10) hkl
    rwa [Nat.ofDigits_digits, Nat.ofDigits_digits] at this
  by_cases hm : m = 0 <;> by_cases hn : n = 0
  · rw [hm, hn]
  · exfalso
    rw [hm, key n hn] at h
    have h2 : (Nat.digits 10 n).map Nat.digitChar = [Nat.digitChar 0] := by
      have := congrArg List.reverse h
      simpa [reprChars] using this.symm
    have h3 : Nat.digits 10 n = [0] := by
      have hlt : ∀ d ∈ Nat.digits 10 n, d < 10 :=
        fun d hd => Nat.digits_lt_base (by norm_num) hd
      have h0lt : ∀ d ∈ ([0] : List Nat), d < 10 := by
        intro d hd
        simp at hd
        omega
      exact map_digitChar_inj _ _ hlt h0lt (by simpa using h2)
    have : n = 0 := by
      have h4 := congrArg (Nat.ofDigits 10) h3
      rw [Nat.ofDigits_digits] at h4
      simpa [Nat.ofDigits] using h4
    exact hn this
  · exfalso
    rw [hn, key m hm] at h
    have h2 : (Nat.digits 10 m).map Nat.digitChar = [Nat.digitChar 0] := by
      have := congrArg List.reverse h
      simpa [reprChars] using this
    have h3 : Nat.digits 10 m = [0] := by
      have hlt : ∀ d ∈ Nat.digits 10 m, d < 10 :=
        fun d hd => Nat.digits_lt_base (by norm_num) hd
      have h0lt : ∀ d ∈ ([0] : List Nat), d < 10 := by
        intro d hd
        simp at hd
        omega
      exact map_digitChar_inj _ _ hlt h0lt (by simpa using h2)
    have : m = 0 := by
      have h4 := congrArg (Nat.ofDigits 10) h3
      rw [Nat.ofDigits_digits] at h4
      simpa [Nat.ofDigits] using h4
    exact hm this
  · rw [key m hm, key n hn] at h
    have h2 := List.reverse_injective h
    have hltm : ∀ d ∈ Nat.digits 10 m, d < 10 :=
      fun d hd => Nat.digits_lt_base (by norm_num) hd
    have hltn : ∀ d ∈ Nat.digits 10 n, d < 10 :=
      fun d hd => Nat.digits_lt_base (by norm_num) hd
    exact digitsEq m n (map_digitChar_inj _ _ hltm hltn h2)

theorem natRepr_injective : Function.Injective Nat.repr := by
  intro m n h
  rw [repr_eq_reprChars, repr_eq_reprChars] at h
  have h2 : reprChars m = reprChars n := by
    have := congrArg String.data h
    simpa [List.asString] using this
  exact reprChars_inj h2

theorem newSessionId_injective : Function.Injective newSessionId := by
  intro m n h
  rw [newSessionId, newSessionId] at h
  have h2 := congrArg String.data h
  simp only [String.data_append] at h2
  have h3 := List.append_cancel_left h2
  exact natRepr_injective (by
    have : (Nat.repr m).data = (Nat.repr n).data := h3
    exact String.ext this)

/-- Concrete state used in the clear-operation examples: three messages
already exchanged, a pending error banner, a session stamped at
millisecond 100. -/
def threeMessageState : ChatState :=
  { messages :=
      [{ role := "user", content := "Hello", modelName := none },
       { role := "assistant", content := "Hi there", modelName := some "legal-v1" },
       { role := "user", content := "Thanks", modelName := none }]
    input := ""
    isLoading := false
    sessionId := newSessionId 100
    settings := { maxLength := 512, temperature := 0.7, topP := 0.9 }
    error := some "Failed to get response. Please try again." }

/-- C1 counterexample: with three existing messages, a confirmed clear
whose remote DELETE call fails leaves the messages non-empty, the session
id unchanged and the error still set — the local reset does not happen
regardless of remote outcome, contradicting the claim. -/
theorem clearChat_remote_failure_keeps_state :
    (clearChat threeMessageState true false 200).1.messages ≠ [] ∧
    (clearChat threeMessageState true false 200).1.sessionId =
      threeMessageState.sessionId ∧
    (clearChat threeMessageState true false 200).1.error ≠ none := by
  refine ⟨?_, rfl, ?_⟩ <;> decide

/-- C1 amended: when the clear is confirmed and the remote DELETE call
succeeds, the messages become empty, the session id changes (provided
the clock reading differs from the one stamped into the prior session
id), and the error is cleared.  When the DELETE fails, no local state
changes at all. -/
theorem clearChat_confirmed_success_resets
    (s : ChatState) (t now : Nat)
    (hs : s.sessionId = newSessionId t) (ht : t ≠ now) :
    (clearChat s true true now).1.messages = [] ∧
    (clearChat s true true now).1.sessionId ≠ s.sessionId ∧
    (clearChat s true true now).1.error = none := by
  refine ⟨rfl, ?_, rfl⟩
  show newSessionId now ≠ s.sessionId
  rw [hs]
  intro hc
  exact ht (newSessionId_injective hc).symm

/-- Witness for the amended C1 statement at the three-message state. -/
theorem clearChat_confirmed_success_resets_witness :
    (clearChat threeMessageState true true 200).1.messages = [] ∧
    (clearChat threeMessageState true true 200).1.sessionId ≠
      threeMessageState.sessionId ∧
    (clearChat threeMessageState true true 200).1.error = none :=
  clearChat_confirmed_success_resets threeMessageState 100 200 rfl (by decide)

/-- C2: a send attempted while a request is in flight, or with an input
that trims to the empty string, is a no-op: the whole state (messages,
sessionId, lastError, pending, and everything else) is unchanged and no
request is dispatched. -/
theorem sendMessage_noop_of_blank_or_pending
    (s : ChatState) (out : NetOutcome)
    (h : jsTrim s.input = "" ∨ s.isLoading = true) :
    sendMessage s out = (s, none) := by
  have hd : sendDispatch s = (s, none) := by
    unfold sendDispatch
    rw [if_pos h]
  unfold sendMessage
  rw [hd]

/-- Witness for C2 at the freshly mounted state, whose input is blank. -/
theorem sendMessage_noop_witness :
    sendMessage (initState 0) (NetOutcome.success "Hi there" "legal-v1") =
      (initState 0, none) :=
  sendMessage_noop_of_blank_or_pending (initState 0) _ (Or.inl (by decide))

/-- C9: in the code as written, a confirmed clear whose remote DELETE
call fails changes no local state at all — the catch block only logs —
while the DELETE request was indeed issued. -/
theorem clearChat_delete_failure_state_unchanged (s : ChatState) (now : Nat) :
    clearChat s true false now = (s, true) := by
  simp [clearChat]

/-- C10: when the confirm dialog is declined, clearChat issues no remote
request and leaves the entire state unchanged. -/
theorem clearChat_declined_noop (s : ChatState) (deleteOk : Bool) (now : Nat) :
    clearChat s false deleteOk now = (s, false) := by
  simp [clearChat]

/-- Concrete idle state with the pending input " Hello " used to witness
the send scenarios. -/
def scenarioState : ChatState :=
  { messages := []
    input := " Hello "
    isLoading := false
    sessionId := newSessionId 0
    settings := { maxLength := 512, temperature := 0.7, topP := 0.9 }
    error := none }

/-- C3: a send with non-blank trimmed input while idle appends exactly
one user message carrying the trimmed text before the network call
resolves, dispatches exactly one request carrying that text, and on a
success body appends exactly one assistant message with the returned
content and model name, with pending back to false. -/
theorem sendMessage_success_appends_user_then_assistant
    (s : ChatState) (response modelName : String)
    (hne : jsTrim s.input ≠ "") (hload : s.isLoading = false) :
    (sendDispatch s).1.messages =
        s.messages ++
          [{ role := "user", content := jsTrim s.input, modelName := none }] ∧
    (sendDispatch s).2 =
        some { message := jsTrim s.input, sessionId := s.sessionId,
               options := s.settings } ∧
    (sendMessage s (NetOutcome.success response modelName)).1.messages =
        s.messages ++
          [{ role := "user", content := jsTrim s.input, modelName := none },
           { role := "assistant", content := response,
             modelName := some modelName }] ∧
    (sendMessage s (NetOutcome.success response modelName)).1.isLoading = false := by
  have hcond : ¬ (jsTrim s.input = "" ∨ s.isLoading = true) := by
    simp [hne, hload]
  have hd : sendDispatch s =
      ({ s with
          input := ""
          error := none
          messages := s.messages ++
            [{ role := "user", content := jsTrim s.input, modelName := none }]
          isLoading := true },
       some { message := jsTrim s.input, sessionId := s.sessionId,
              options := s.settings }) := by
    unfold sendDispatch
    rw [if_neg hcond]
  refine ⟨by rw [hd], by rw [hd], ?_, ?_⟩ <;>
    · unfold sendMessage
      rw [hd]
      simp [sendResolve]

/-- Witness for C3: scenario A at the concrete idle state, the input
trimming to "Hello" and the reply being Hi there from legal-v1. -/
theorem sendMessage_success_witness :
    (sendMessage scenarioState (NetOutcome.success "Hi there" "legal-v1")).1.messages =
      [{ role := "user", content := "Hello", modelName := none },
       { role := "assistant", content := "Hi there", modelName := some "legal-v1" }] := by
  have h := sendMessage_success_appends_user_then_assistant scenarioState
    "Hi there" "legal-v1" (by decide) rfl
  rw [h.2.2.1]
  decide

/-- C4: a send whose remote call fails appends exactly one error-role
message carrying the classified text, stores the same text in the error
state, resets pending, and dispatched exactly one request (no retry). -/
theorem sendMessage_failure_appends_error
    (s : ChatState) (e : AxiosError)
    (hne : jsTrim s.input ≠ "") (hload : s.isLoading = false) :
    (sendMessage s (NetOutcome.failure e)).1.messages =
        s.messages ++
          [{ role := "user", content := jsTrim s.input, modelName := none },
           { role := "error", content := classifyError e, modelName := none }] ∧
    (sendMessage s (NetOutcome.failure e)).1.error = some (classifyError e) ∧
    (sendMessage s (NetOutcome.failure e)).1.isLoading = false ∧
    (sendMessage s (NetOutcome.failure e)).2 =
        some { message := jsTrim s.input, sessionId := s.sessionId,
               options := s.settings } := by
  have hcond : ¬ (jsTrim s.input = "" ∨ s.isLoading = true) := by
    simp [hne, hload]
  have hd : sendDispatch s =
      ({ s with
          input := ""
          error := none
          messages := s.messages ++
            [{ role := "user", content := jsTrim s.input, modelName := none }]
          isLoading := true },
       some { message := jsTrim s.input, sessionId := s.sessionId,
              options := s.settings }) := by
    unfold sendDispatch
    rw [if_neg hcond]
  unfold sendMessage
  rw [hd]
  simp [sendResolve]

/-- Witness for C4: scenario B at the concrete idle state, the request
timing out, the conversation gaining one error message whose text starts
with the timeout wording. -/
theorem sendMessage_failure_witness :
    (sendMessage scenarioState
        (NetOutcome.failure { code := some "ECONNABORTED", response := none })).1.messages =
      [{ role := "user", content := "Hello", modelName := none },
       { role := "error",
         content :=
           "Failed to get response. Request timed out. The model might be taking too long to respond.",
         modelName := none }] ∧
    (sendMessage scenarioState
        (NetOutcome.failure { code := some "ECONNABORTED", response := none })).1.error =
      some
        "Failed to get response. Request timed out. The model might be taking too long to respond." := by
  have h := sendMessage_failure_appends_error scenarioState
    { code := some "ECONNABORTED", response := none } (by decide) rfl
  refine ⟨?_, ?_⟩
  · rw [h.1]
    decide
  · rw [h.2.1]
    decide

/-- C5: the classifier is a total function on error shapes; each of the
five outcome categories read off the axios error (timeout via the
ECONNABORTED code, rate-limited via status 429, server-provided message
via a non-empty response body message, unreachable via an absent
response, unknown otherwise) maps to its one fixed string, the
server-provided text passing through verbatim; every classified message
carries the uniform failure wording as a leading segment; and identical
inputs yield identical outputs. -/
theorem classifyError_cases_and_deterministic :
    (∀ e : AxiosError, e.code = some "ECONNABORTED" →
        classifyError e =
          "Failed to get response. Request timed out. The model might be taking too long to respond.") ∧
    (∀ (e : AxiosError) (r : AxiosResponse), e.code ≠ some "ECONNABORTED" →
        e.response = some r → r.status = 429 →
        classifyError e =
          "Failed to get response. Too many requests. Please wait a moment and try again.") ∧
    (∀ (e : AxiosError) (r : AxiosResponse), e.code ≠ some "ECONNABORTED" →
        e.response = some r → r.status ≠ 429 → r.dataMessage ≠ "" →
        classifyError e = "Failed to get response. " ++ r.dataMessage) ∧
    (∀ e : AxiosError, e.code ≠ some "ECONNABORTED" → e.response = none →
        classifyError e =
          "Failed to get response. Cannot connect to server. Please check if the backend is running.") ∧
    (∀ (e : AxiosError) (r : AxiosResponse), e.code ≠ some "ECONNABORTED" →
        e.response = some r → r.status ≠ 429 → r.dataMessage = "" →
        classifyError e = "Failed to get response. Please try again.") ∧
    (∀ e : AxiosError, ∃ rest : String,
        classifyError e = "Failed to get response. " ++ rest) ∧
    (∀ e1 e2 : AxiosError, e1 = e2 → classifyError e1 = classifyError e2) := by
  refine ⟨?_, ?_, ?_, ?_, ?_, ?_, ?_⟩
  · intro e h
    simp [classifyError, classifySuffix, h]
  · intro e r hc hr hs
    simp [classifyError, classifySuffix, hc, hr, hs]
  · intro e r hc hr hs hm
    simp [classifyError, classifySuffix, hc, hr, hs, hm]
  · intro e hc hr
    simp [classifyError, classifySuffix, hc, hr]
  · intro e r hc hr hs hm
    simp [classifyError, classifySuffix, hc, hr, hs, hm]
  · intro e
    exact ⟨classifySuffix e, rfl⟩
  · intro e1 e2 h
    rw [h]

/-- Witness for C5: a timeout error and a server-message error, each
classified to its documented text. -/
theorem classifyError_witness :
    classifyError { code := some "ECONNABORTED", response := none } =
      "Failed to get response. Request timed out. The model might be taking too long to respond." ∧
    classifyError
        { code := none,
          response := some { status := 500, dataMessage := "Model crashed" } } =
      "Failed to get response. Model crashed" :=
  ⟨classifyError_cases_and_deterministic.1 _ rfl,
   classifyError_cases_and_deterministic.2.2.1 _
     { status := 500, dataMessage := "Model crashed" }
     (by decide) rfl (by decide) (by decide)⟩

/-- C6 counterexample: two session tokens generated in the same process
at the same millisecond reading (an immediate clear after mount, or two
clears within one millisecond) collide, so tokens are not unique within
the process lifetime. -/
theorem sessionTokens_same_millisecond_collide :
    ¬ (sessionTokens [5, 5]).Nodup := by
  decide

/-- C6 amended: the token generator is injective in the clock reading,
so session tokens generated at pairwise-distinct millisecond readings
are pairwise distinct; uniqueness fails only when two generations fall
into the same millisecond. -/
theorem sessionTokens_nodup_of_distinct_times
    (times : List Nat) (h : times.Nodup) : (sessionTokens times).Nodup := by
  unfold sessionTokens
  exact List.Nodup.map newSessionId_injective h

/-- Witness for the amended C6 statement on three distinct readings. -/
theorem sessionTokens_nodup_witness :
    ([1, 2, 3] : List Nat).Nodup ∧ (sessionTokens [1, 2, 3]).Nodup :=
  ⟨by decide, sessionTokens_nodup_of_distinct_times [1, 2, 3] (by decide)⟩

/-- C7: applying a patch touching any subset of the three fields
replaces exactly the patched fields and leaves unpatched fields
unchanged, with no clamping, and the settings at controller
initialization equal the documented defaults. -/
theorem applyPatch_roundtrip_and_defaults :
    (∀ (s : GenerationSettings) (p : SettingsPatch),
        (p.maxLength = none → (applyPatch s p).maxLength = s.maxLength) ∧
        (∀ v, p.maxLength = some v → (applyPatch s p).maxLength = v) ∧
        (p.temperature = none → (applyPatch s p).temperature = s.temperature) ∧
        (∀ v, p.temperature = some v → (applyPatch s p).temperature = v) ∧
        (p.topP = none → (applyPatch s p).topP = s.topP) ∧
        (∀ v, p.topP = some v → (applyPatch s p).topP = v)) ∧
    (∀ t0 : Nat, (initState t0).settings =
        { maxLength := 512, temperature := 7 / 10, topP := 9 / 10 }) := by
  constructor
  · rintro s ⟨ml, tp, pp⟩
    refine ⟨?_, ?_, ?_, ?_, ?_, ?_⟩ <;>
      cases ml <;> cases tp <;> cases pp <;>
        simp_all [applyPatch, setMaxLength, setTemperature, setTopP]
  · intro t0
    show ({ maxLength := 512, temperature := 0.7, topP := 0.9 } :
        GenerationSettings) = _
    norm_num

/-- Witness for C7: patching only maxLength on the defaults changes that
field and keeps temperature and topP. -/
theorem applyPatch_witness :
    (applyPatch { maxLength := 512, temperature := 7 / 10, topP := 9 / 10 }
        { maxLength := some 1024, temperature := none, topP := none }).maxLength =
      1024 ∧
    (applyPatch { maxLength := 512, temperature := 7 / 10, topP := 9 / 10 }
        { maxLength := some 1024, temperature := none, topP := none }).temperature =
      7 / 10 ∧
    (applyPatch { maxLength := 512, temperature := 7 / 10, topP := 9 / 10 }
        { maxLength := some 1024, temperature := none, topP := none }).topP =
      9 / 10 :=
  ⟨(applyPatch_roundtrip_and_defaults.1 _ _).2.1 1024 rfl,
   (applyPatch_roundtrip_and_defaults.1 _ _).2.2.1 rfl,
   (applyPatch_roundtrip_and_defaults.1 _ _).2.2.2.2.1 rfl⟩

/-- C8: every controller operation either appends at the end of the
message list (possibly nothing) or, only in the case of a clear, replaces
it with the empty list; no already-appended message is ever modified,
removed individually or reordered. -/
theorem step_messages_append_only_except_clear (s : ChatState) (op : Op) :
    (∃ t, (step s op).messages = s.messages ++ t) ∨
    ((step s op).messages = [] ∧ ∃ c d n, op = Op.clear c d n) := by
  cases op with
  | send out =>
    left
    by_cases h : jsTrim s.input = "" ∨ s.isLoading = true
    · refine ⟨[], ?_⟩
      rw [show step s (Op.send out) = (sendMessage s out).1 from rfl,
        sendMessage_noop_of_blank_or_pending s out h]
      simp
    · have hcond := h
      cases out with
      | success response modelName =>
        refine ⟨[{ role := "user", content := jsTrim s.input, modelName := none },
                 { role := "assistant", content := response,
                   modelName := some modelName }], ?_⟩
        show (sendMessage s (NetOutcome.success response modelName)).1.messages = _
        unfold sendMessage sendDispatch
        rw [if_neg hcond]
        simp [sendResolve]
      | failure e =>
        refine ⟨[{ role := "user", content := jsTrim s.input, modelName := none },
                 { role := "error", content := classifyError e,
                   modelName := none }], ?_⟩
        show (sendMessage s (NetOutcome.failure e)).1.messages = _
        unfold sendMessage sendDispatch
        rw [if_neg hcond]
        simp [sendResolve]
  | clear confirmed deleteOk now =>
    cases confirmed with
    | false =>
      left
      exact ⟨[], by simp [step, clearChat]⟩
    | true =>
      cases deleteOk with
      | false =>
        left
        exact ⟨[], by simp [step, clearChat]⟩
      | true =>
        right
        exact ⟨by simp [step, clearChat], true, true, now, rfl⟩
  | health ok =>
    left
    refine ⟨[], ?_⟩
    cases ok <;> simp [step, checkHealth]
  | patchSettings p =>
    left
    exact ⟨[], by simp [step, setSettingsState]⟩
  | editInput t =>
    left
    exact ⟨[], by simp [step, setInputState]⟩
